import Mathlib

/-!
Verification of the schema-adaptive query runner (`run_query.py`).

The development shallowly embeds the pure core of `build_query`: the schema
snapshot (table names paired with column names, as the store reports them),
candidate-column resolution (`find_first_in`), tier selection, and the exact
rendered query text of the three tiers.  The SQLite connection is replaced by
the snapshot value it would yield; everything downstream of the snapshot in
`build_query` is straight-line pure code and is translated verbatim.
-/

/-- A schema snapshot: the ordered table list, each table paired with its
ordered column-name list, exactly as the store reports them
(`get_tables` / `get_columns` in `run_query.py`). -/
structure Schema where
  tables : List (String × List String)
deriving DecidableEq

/-- ASCII lower-casing of one character, modelling Python's `str.lower`
on the ASCII table/column names the program deals with. -/
def lowerChar (c : Char) : Char :=
  if c.toNat ≥ 65 ∧ c.toNat ≤ 90 then Char.ofNat (c.toNat + 32) else c

/-- `s.lower()` from `run_query.py` line 36 (ASCII). -/
def lowerStr (s : String) : String := String.mk (s.data.map lowerChar)

/-- `get_tables`: the ordered list of table names of the snapshot. -/
def get_tables (s : Schema) : List String := s.tables.map Prod.fst

/-- `get_columns`: the ordered column list of table `t`
(`PRAGMA table_info`); an unknown table yields `[]`, as the PRAGMA does. -/
def get_columns (s : Schema) (t : String) : List String :=
  match s.tables.find? (fun p => p.1 == t) with
  | some p => p.2
  | none => []

-- candidate column names to try (ordered by preference), lines 12-18
def PRODUCT_NAME_CANDIDATES : List String :=
  ["product_name", "name", "title", "product_title", "product"]
def ORDER_TOTAL_CANDIDATES : List String :=
  ["total_amount", "total", "amount", "order_total"]
def REVIEW_RATING_CANDIDATES : List String := ["rating", "stars", "score"]
def ORDER_ID_CANDIDATES : List String := ["order_id", "id"]
def PRODUCT_ID_CANDIDATES : List String := ["product_id", "id"]
def CUSTOMER_ID_CANDIDATES : List String := ["customer_id", "id"]
def QUANTITY_CANDIDATES : List String := ["quantity", "qty"]

/-- The inline candidate list `["subtotal", "line_total", "amount"]` of
line 77 of `run_query.py`. -/
def SUBTOTAL_CANDIDATES : List String := ["subtotal", "line_total", "amount"]

/-- `find_first_in(cols, candidates)` (lines 28-32): the first candidate,
in candidate order, contained in `cols`; `none` when no candidate occurs. -/
def find_first_in (cols : List String) (candidates : List String) : Option String :=
  match candidates with
  | [] => none
  | c :: rest => if cols.contains c then some c else find_first_in cols rest

/-- Python truthiness of an `Optional[str]`: `None` and `""` are falsy. -/
def truthyS (o : Option String) : Bool :=
  match o with
  | some s => s != ""
  | none => false

/-- Python `a or b` on two `Optional[str]` values. -/
def pyOrOpt (a b : Option String) : Option String := if truthyS a then a else b

/-- Python `a or d` where `a : Optional[str]` and `d` a string literal,
as used in the f-strings (`quantity_col or 'quantity'` etc.). -/
def pyOrS (o : Option String) (d : String) : String :=
  match o with
  | some s => if s = "" then d else s
  | none => d

/-- Python f-string interpolation of an `Optional[str]`: `None` renders as
the four characters `None`. -/
def pyStr (o : Option String) : String :=
  match o with
  | some s => s
  | none => "None"

/-- `('r.' + rating_col) if rating_col else 'NULL AS rating'`
(lines 95 and 118). -/
def ratingExpr (o : Option String) : String :=
  match o with
  | some s => if s = "" then "NULL AS rating" else "r." ++ s
  | none => "NULL AS rating"

/-- `f"o.{order_total_col}" if order_total_col else "o.total_amount"`
(line 108). -/
def subtotalExprD (o : Option String) : String :=
  match o with
  | some s => if s = "" then "o.total_amount" else "o." ++ s
  | none => "o.total_amount"

/-- Ways `build_query` can fail: the explicit `RuntimeError` of line 40
(mandatory tables missing), the `IndexError` a `cols[0]` fallback raises on a
zero-column table (lines 62-63), and an unreachable branch (`find_table`
returning `None` for a table whose lowered name was just seen in the list). -/
inductive BuildError where
  | schemaInsufficient
  | indexError
  | internalError
deriving DecidableEq

/-- `find_table(name)` (lines 43-47): first table whose lowered name is
`name`, preserving its original case. -/
def find_table (tables : List String) (name : String) : Option String :=
  tables.find? (fun t => lowerStr t == name)

/-- `find_first_in(cols, cands) or cols[0]` (lines 62-63): the resolved id
column, falling back to the table's first column; `IndexError` when the
fallback is taken on an empty column list. -/
def resolveIdColumn (cols : List String) (cands : List String) : Except BuildError String :=
  match find_first_in cols cands with
  | some c =>
      if c = "" then
        match cols with
        | [] => Except.error BuildError.indexError
        | c0 :: _ => Except.ok c0
      else Except.ok c
  | none =>
      match cols with
      | [] => Except.error BuildError.indexError
      | c0 :: _ => Except.ok c0

/-- `get_columns(conn, t) if t else []` for the optional tables
(lines 57-59). -/
def colsOfOpt (s : Schema) (t : Option String) : List String :=
  match t with
  | some name => if name = "" then [] else get_columns s name
  | none => []

/-- All intermediate values `build_query` computes before choosing a tier
(lines 49-81 of `run_query.py`). -/
structure Resolved where
  t_customers : String
  t_orders : String
  t_products : Option String
  t_order_items : Option String
  t_reviews : Option String
  customers_cols : List String
  orders_cols : List String
  products_cols : List String
  oi_cols : List String
  reviews_cols : List String
  cust_id_col : String
  order_id_col : String
  product_id_col : Option String
  product_name_col : Option String
  quantity_col : Option String
  subtotal_col : Option String
  order_total_col : Option String
  rating_col : Option String
deriving DecidableEq

/-- Lines 51-81 of `build_query`, after the exact names of the mandatory
tables have been found: optional-table lookup, column capture, and every
role resolution, each translated clause by clause. -/
def mkResolved (s : Schema) (tc : String) (tto : String) : Except BuildError Resolved :=
  let tables := get_tables s
  let tables_lower := tables.map lowerStr
  let t_products := if tables_lower.contains "products" then find_table tables "products" else none
  let t_order_items := if tables_lower.contains "order_items" then find_table tables "order_items" else none
  let t_reviews := if tables_lower.contains "reviews" then find_table tables "reviews" else none
  let orders_cols := get_columns s tto
  let customers_cols := get_columns s tc
  let products_cols := colsOfOpt s t_products
  let oi_cols := colsOfOpt s t_order_items
  let reviews_cols := colsOfOpt s t_reviews
  match resolveIdColumn customers_cols CUSTOMER_ID_CANDIDATES,
        resolveIdColumn orders_cols ORDER_ID_CANDIDATES with
  | Except.ok cust_id_col, Except.ok order_id_col =>
      Except.ok
        { t_customers := tc
          t_orders := tto
          t_products := t_products
          t_order_items := t_order_items
          t_reviews := t_reviews
          customers_cols := customers_cols
          orders_cols := orders_cols
          products_cols := products_cols
          oi_cols := oi_cols
          reviews_cols := reviews_cols
          cust_id_col := cust_id_col
          order_id_col := order_id_col
          product_id_col :=
            pyOrOpt (if oi_cols.isEmpty then none else find_first_in oi_cols PRODUCT_ID_CANDIDATES)
              (find_first_in orders_cols PRODUCT_ID_CANDIDATES)
          product_name_col :=
            if products_cols.isEmpty then none
            else find_first_in products_cols PRODUCT_NAME_CANDIDATES
          quantity_col :=
            if oi_cols.isEmpty then none else find_first_in oi_cols QUANTITY_CANDIDATES
          subtotal_col :=
            if oi_cols.isEmpty then none else find_first_in oi_cols SUBTOTAL_CANDIDATES
          order_total_col := find_first_in orders_cols ORDER_TOTAL_CANDIDATES
          rating_col :=
            if reviews_cols.isEmpty then none
            else find_first_in reviews_cols REVIEW_RATING_CANDIDATES }
  | Except.error e, _ => Except.error e
  | _, Except.error e => Except.error e

/-- Lines 35-50 of `build_query`: the mandatory-table check (the
`RuntimeError` of line 40, the spec's `SchemaInsufficientError`) and the
exact-name lookup of the two mandatory tables. -/
def resolveSchema (s : Schema) : Except BuildError Resolved :=
  let tables := get_tables s
  let tables_lower := tables.map lowerStr
  if tables_lower.contains "customers" && tables_lower.contains "orders" then
    match find_table tables "customers", find_table tables "orders" with
    | some tc, some tto => mkResolved s tc tto
    | _, _ => Except.error BuildError.internalError
  else Except.error BuildError.schemaInsufficient

/-- The three query tiers of §4.3 of the spec (lines 84, 106 and 127). -/
inductive Tier where
  | full
  | degraded
  | minimal
deriving DecidableEq

/-- Tier selection, lines 84 and 106: first the full item-level join, then
the order-level fallback, else the minimal customers/orders join. -/
def tierOf (r : Resolved) : Tier :=
  if truthyS r.t_order_items && truthyS r.product_name_col then Tier.full
  else if truthyS r.product_id_col && truthyS r.t_products && truthyS r.product_name_col then
    Tier.degraded
  else Tier.minimal

/-- The full-tier f-string of lines 86-102, transcribed byte for byte;
the join lines are grouped so each clause is one parenthesised factor. -/
def renderFull (r : Resolved) : String :=
  "\n        SELECT\n            c." ++ r.cust_id_col ++ " AS customer_id,\n            c.name AS customer_name,\n            p." ++ pyStr r.product_name_col ++ " AS product_name,\n            o." ++ r.order_id_col ++ " AS order_id,\n            o.order_date,\n            oi." ++ pyOrS r.quantity_col "quantity" ++ " AS quantity,\n            oi." ++ pyOrS r.subtotal_col "subtotal" ++ " AS subtotal,\n            " ++ ratingExpr r.rating_col ++ "\n        FROM " ++ r.t_customers ++ " c\n        "
  ++ ("JOIN " ++ r.t_orders ++ " o ON c." ++ r.cust_id_col ++ " = o.customer_id")
  ++ "\n        "
  ++ ("JOIN " ++ pyStr r.t_order_items ++ " oi ON o." ++ r.order_id_col ++ " = oi.order_id")
  ++ "\n        "
  ++ ("LEFT JOIN " ++ pyStr r.t_products ++ " p ON oi.product_id = p." ++ pyOrS r.product_id_col "product_id")
  ++ "\n        "
  ++ ("LEFT JOIN " ++ pyStr r.t_reviews ++ " r ON r.customer_id = c." ++ r.cust_id_col ++ " AND r.product_id = p." ++ pyOrS r.product_id_col "product_id")
  ++ "\n        "
  ++ ("LIMIT 50;")
  ++ "\n        "

/-- The degraded-tier f-string of lines 109-124 (`qty` is the literal
`"1"`), transcribed byte for byte. -/
def renderDegraded (r : Resolved) : String :=
  "\n        SELECT\n            c." ++ r.cust_id_col ++ " AS customer_id,\n            c.name AS customer_name,\n            p." ++ pyStr r.product_name_col ++ " AS product_name,\n            o." ++ r.order_id_col ++ " AS order_id,\n            o.order_date,\n            1 AS quantity,\n            " ++ subtotalExprD r.order_total_col ++ " AS subtotal,\n            " ++ ratingExpr r.rating_col ++ "\n        FROM " ++ r.t_customers ++ " c\n        "
  ++ ("JOIN " ++ r.t_orders ++ " o ON c." ++ r.cust_id_col ++ " = o.customer_id")
  ++ "\n        "
  ++ ("LEFT JOIN " ++ pyStr r.t_products ++ " p ON o." ++ pyStr r.product_id_col ++ " = p." ++ pyStr r.product_id_col)
  ++ "\n        "
  ++ ("LEFT JOIN " ++ pyStr r.t_reviews ++ " r ON r.customer_id = c." ++ r.cust_id_col ++ " AND r.product_id = p." ++ pyStr r.product_id_col)
  ++ "\n        "
  ++ ("LIMIT 50;")
  ++ "\n        "

/-- The minimal-tier f-string of lines 128-138, transcribed byte for byte. -/
def renderMinimal (r : Resolved) : String :=
  "\n    "
  ++ ("SELECT\n        c." ++ r.cust_id_col ++ " AS customer_id,\n        c.name AS customer_name,\n        o." ++ r.order_id_col ++ " AS order_id,\n        o.order_date,\n        o." ++ pyOrS r.order_total_col "total_amount" ++ " AS total_amount")
  ++ "\n    FROM " ++ r.t_customers ++ " c\n    "
  ++ ("LEFT JOIN " ++ r.t_orders ++ " o ON c." ++ r.cust_id_col ++ " = o.customer_id")
  ++ "\n    "
  ++ ("LIMIT 50;")
  ++ "\n    "

/-- Render the selected tier's query text (the three returns of lines
103, 125 and 139). -/
def render (r : Resolved) : String :=
  match tierOf r with
  | Tier.full => renderFull r
  | Tier.degraded => renderDegraded r
  | Tier.minimal => renderMinimal r

/-- `build_query` (lines 34-139): schema capture, role resolution, tier
selection and rendering, as one function of the schema snapshot. -/
def build_query (s : Schema) : Except BuildError String :=
  Except.map render (resolveSchema s)

/-- The rendered text of a successful build; `""` for a failed one. -/
def okStr (x : Except BuildError String) : String :=
  match x with
  | Except.ok q => q
  | Except.error _ => ""

/-- `needle` occurs contiguously inside `hay`. -/
def occursIn (needle hay : String) : Prop := ∃ u v : String, hay = u ++ needle ++ v

/-- Every candidate column name any role of `run_query.py` ever tries
(the seven module-level lists plus the inline subtotal list). -/
def allCandidateColumns : List String :=
  PRODUCT_NAME_CANDIDATES ++ ORDER_TOTAL_CANDIDATES ++ REVIEW_RATING_CANDIDATES ++
  ORDER_ID_CANDIDATES ++ PRODUCT_ID_CANDIDATES ++ CUSTOMER_ID_CANDIDATES ++
  QUANTITY_CANDIDATES ++ SUBTOTAL_CANDIDATES

/-! ### Helper lemmas -/

theorem occursIn_appL {n a : String} (b : String) (h : occursIn n a) :
    occursIn n (a ++ b) := by
  obtain ⟨u, v, rfl⟩ := h
  exact ⟨u, v ++ b, String.append_assoc (u ++ n) v b⟩

theorem occursIn_appR {n b : String} (a : String) (h : occursIn n b) :
    occursIn n (a ++ b) := by
  obtain ⟨u, v, rfl⟩ := h
  exact ⟨a ++ u, v, by simp [String.append_assoc]⟩

theorem occursIn_mid (a n b : String) : occursIn n (a ++ n ++ b) := ⟨a, b, rfl⟩

theorem occursIn_self (n : String) : occursIn n n :=
  ⟨"", "", by simp⟩

theorem find_first_in_none_iff (cols : List String) (cands : List String) :
    find_first_in cols cands = none ↔ ∀ c ∈ cands, c ∉ cols := by
  induction cands with
  | nil => simp [find_first_in]
  | cons a rest ih =>
    by_cases ha : a ∈ cols
    · simp [find_first_in, List.elem_iff, ha]
    · simp [find_first_in, List.elem_iff, ha, ih]

theorem find_first_in_some_spec (cols : List String) :
    ∀ (cands : List String) (c : String), find_first_in cols cands = some c →
      c ∈ cols ∧ ∃ pre post, cands = pre ++ c :: post ∧ ∀ x ∈ pre, x ∉ cols := by
  intro cands
  induction cands with
  | nil => simp [find_first_in]
  | cons a rest ih =>
    intro c h
    by_cases ha : a ∈ cols
    · rw [find_first_in, if_pos (by simpa [List.elem_iff] using ha)] at h
      cases h
      exact ⟨ha, [], rest, rfl, by simp⟩
    · rw [find_first_in, if_neg (by simpa [List.elem_iff] using ha)] at h
      obtain ⟨hc, pre, post, rfl, hpre⟩ := ih c h
      refine ⟨hc, a :: pre, post, rfl, ?_⟩
      intro x hx
      rcases List.mem_cons.mp hx with hx | hx
      · exact hx ▸ ha
      · exact hpre x hx

theorem resolveIdColumn_error_inv {cols cands : List String} {e : BuildError}
    (h : resolveIdColumn cols cands = Except.error e) :
    e = BuildError.indexError ∧ cols = [] := by
  unfold resolveIdColumn at h
  split at h
  · split at h
    · cases cols <;> simp_all
    · simp_all
  · cases cols <;> simp_all

theorem resolveIdColumn_none {cols cands : List String} {c0 : String} {cs : List String}
    (hn : find_first_in cols cands = none) (hc : cols = c0 :: cs) :
    resolveIdColumn cols cands = Except.ok c0 := by
  subst hc
  simp [resolveIdColumn, hn]

theorem mkResolved_ok_fields {s : Schema} {tc tto : String} {r : Resolved}
    (h : mkResolved s tc tto = Except.ok r) :
    resolveIdColumn (get_columns s tc) CUSTOMER_ID_CANDIDATES = Except.ok r.cust_id_col ∧
    resolveIdColumn (get_columns s tto) ORDER_ID_CANDIDATES = Except.ok r.order_id_col ∧
    r.t_customers = tc ∧ r.t_orders = tto ∧
    r.t_products = (if ((get_tables s).map lowerStr).contains "products" then
      find_table (get_tables s) "products" else none) ∧
    r.t_order_items = (if ((get_tables s).map lowerStr).contains "order_items" then
      find_table (get_tables s) "order_items" else none) ∧
    r.t_reviews = (if ((get_tables s).map lowerStr).contains "reviews" then
      find_table (get_tables s) "reviews" else none) ∧
    r.customers_cols = get_columns s tc ∧
    r.orders_cols = get_columns s tto ∧
    r.products_cols = colsOfOpt s r.t_products ∧
    r.oi_cols = colsOfOpt s r.t_order_items ∧
    r.reviews_cols = colsOfOpt s r.t_reviews ∧
    r.product_id_col = pyOrOpt
      (if r.oi_cols.isEmpty then none else find_first_in r.oi_cols PRODUCT_ID_CANDIDATES)
      (find_first_in r.orders_cols PRODUCT_ID_CANDIDATES) ∧
    r.product_name_col = (if r.products_cols.isEmpty then none
      else find_first_in r.products_cols PRODUCT_NAME_CANDIDATES) ∧
    r.quantity_col = (if r.oi_cols.isEmpty then none
      else find_first_in r.oi_cols QUANTITY_CANDIDATES) ∧
    r.subtotal_col = (if r.oi_cols.isEmpty then none
      else find_first_in r.oi_cols SUBTOTAL_CANDIDATES) ∧
    r.order_total_col = find_first_in r.orders_cols ORDER_TOTAL_CANDIDATES ∧
    r.rating_col = (if r.reviews_cols.isEmpty then none
      else find_first_in r.reviews_cols REVIEW_RATING_CANDIDATES) := by
  unfold mkResolved at h
  dsimp only at h
  split at h
  case h_1 cic oic hcic hoic =>
    cases h
    refine ⟨hcic, hoic, ?_⟩
    simp
  case h_2 => exact absurd h (by simp)
  case h_3 => exact absurd h (by simp)

theorem mkResolved_error_inv {s : Schema} {tc tto : String} {e : BuildError}
    (h : mkResolved s tc tto = Except.error e) : e = BuildError.indexError := by
  unfold mkResolved at h
  dsimp only at h
  cases hc1 : resolveIdColumn (get_columns s tc) CUSTOMER_ID_CANDIDATES with
  | error e1 =>
    rw [hc1] at h
    cases hc2 : resolveIdColumn (get_columns s tto) ORDER_ID_CANDIDATES with
    | error e2 =>
      rw [hc2] at h
      simp only [Except.error.injEq] at h
      exact h ▸ (resolveIdColumn_error_inv hc1).1
    | ok c2 =>
      rw [hc2] at h
      simp only [Except.error.injEq] at h
      exact h ▸ (resolveIdColumn_error_inv hc1).1
  | ok c1 =>
    rw [hc1] at h
    cases hc2 : resolveIdColumn (get_columns s tto) ORDER_ID_CANDIDATES with
    | error e2 =>
      rw [hc2] at h
      simp only [Except.error.injEq] at h
      exact h ▸ (resolveIdColumn_error_inv hc2).1
    | ok c2 =>
      rw [hc2] at h
      simp at h

theorem build_query_error_iff {s : Schema} {e : BuildError} :
    build_query s = Except.error e ↔ resolveSchema s = Except.error e := by
  unfold build_query
  cases h : resolveSchema s <;> simp [Except.map]

theorem resolveSchema_ok_inv {s : Schema} {r : Resolved}
    (h : resolveSchema s = Except.ok r) :
    ∃ tc tto,
      ((get_tables s).map lowerStr).contains "customers" = true ∧
      ((get_tables s).map lowerStr).contains "orders" = true ∧
      find_table (get_tables s) "customers" = some tc ∧
      find_table (get_tables s) "orders" = some tto ∧
      mkResolved s tc tto = Except.ok r := by
  unfold resolveSchema at h
  dsimp only at h
  split at h
  case isTrue hb =>
    split at h
    case h_1 tc tto htc htto =>
      exact ⟨tc, tto, (Bool.and_eq_true_iff.mp hb).1, (Bool.and_eq_true_iff.mp hb).2, htc, htto, h⟩
    case h_2 => simp_all
  case isFalse => simp_all

theorem build_query_ok_iff {s : Schema} {q : String} :
    build_query s = Except.ok q ↔ ∃ r, resolveSchema s = Except.ok r ∧ q = render r := by
  unfold build_query
  cases h : resolveSchema s <;> simp [Except.map, eq_comm]

/-! ### Claims -/

/-- C2: `build_query` fails with the schema-insufficiency error
(`RuntimeError`, the spec's `SchemaInsufficientError`) precisely when the
snapshot has no customers table or no orders table, the presence check
lower-casing each table name; a failure carries no query string (the
`Except.error` constructor has none). -/
theorem schema_insufficient_iff_missing_mandatory (s : Schema) :
    build_query s = Except.error BuildError.schemaInsufficient ↔
      ¬ ("customers" ∈ (get_tables s).map lowerStr ∧
         "orders" ∈ (get_tables s).map lowerStr) := by
  rw [build_query_error_iff]
  unfold resolveSchema
  dsimp only
  by_cases hb : (((get_tables s).map lowerStr).contains "customers"
      && ((get_tables s).map lowerStr).contains "orders") = true
  · rw [if_pos hb]
    have hmem : "customers" ∈ (get_tables s).map lowerStr ∧
        "orders" ∈ (get_tables s).map lowerStr := by
      simpa using hb
    constructor
    · intro h
      exfalso
      cases htc : find_table (get_tables s) "customers" with
      | none =>
        rw [htc] at h
        cases htto : find_table (get_tables s) "orders" <;> rw [htto] at h <;> simp at h
      | some tc =>
        rw [htc] at h
        cases htto : find_table (get_tables s) "orders" with
        | none => rw [htto] at h; simp at h
        | some tto =>
          rw [htto] at h
          simp only at h
          exact absurd (mkResolved_error_inv h) (by simp)
    · intro hcon
      exact absurd hmem hcon
  · rw [if_neg hb]
    constructor
    · intro _
      intro hmem
      exact hb (by simpa using hmem)
    · intro _
      rfl

/-- C7: `find_first_in` is total by construction and returns the first
candidate, in candidate order, occurring in the columns under exact string
equality, `none` exactly when no candidate occurs; in particular on
candidates `[a, b, c]` with `b` present and `a` absent it returns `b`. -/
theorem find_first_in_spec (cols cands : List String) :
    (find_first_in cols cands = none ↔ ∀ c ∈ cands, c ∉ cols) ∧
    (∀ c, find_first_in cols cands = some c →
      c ∈ cols ∧ ∃ pre post, cands = pre ++ c :: post ∧ ∀ x ∈ pre, x ∉ cols) ∧
    (∀ a b c : String, cands = [a, b, c] → a ∉ cols → b ∈ cols →
      find_first_in cols cands = some b) := by
  refine ⟨find_first_in_none_iff cols cands,
    fun c => find_first_in_some_spec cols cands c, ?_⟩
  intro a b c hc ha hb
  subst hc
  simp only [find_first_in]
  rw [if_neg (by simpa [List.elem_iff] using ha), if_pos (by simpa [List.elem_iff] using hb)]

/-- Witness for C7 at the spec's own instance: candidates `[a, b, c]`,
columns `[b, c]`. -/
theorem find_first_in_spec_witness :
    find_first_in ["b", "c"] ["a", "b", "c"] = some "b" :=
  (find_first_in_spec ["b", "c"] ["a", "b", "c"]).2.2 "a" "b" "c" rfl
    (by decide) (by decide)

/-- C9: query construction is a pure function of the schema snapshot: equal
snapshots render byte-identical query text. -/
theorem build_query_deterministic (s t : Schema) (h : s = t) :
    build_query s = build_query t := by rw [h]

/-- Witness for C9 on a concrete snapshot. -/
theorem build_query_deterministic_witness :
    build_query ⟨[("customers", ["id", "name"]), ("orders", ["id", "order_date"])]⟩ =
      build_query ⟨[("customers", ["id", "name"]), ("orders", ["id", "order_date"])]⟩ :=
  build_query_deterministic _ _ rfl

/-- C8: every successfully rendered query, in all three tiers, carries the
literal row cap `LIMIT 50;`. -/
theorem all_tiers_limit_50 (s : Schema) (q : String)
    (h : build_query s = Except.ok q) : occursIn "LIMIT 50;" q := by
  obtain ⟨r, _, rfl⟩ := build_query_ok_iff.mp h
  cases ht : tierOf r <;> simp only [render, ht] <;>
    first
    | exact occursIn_appL _ (occursIn_appR _ (occursIn_self _))

set_option maxRecDepth 8192 in
/-- Witness for C8 on a concrete minimal-tier snapshot. -/
theorem all_tiers_limit_50_witness :
    occursIn "LIMIT 50;"
      (okStr (build_query ⟨[("customers", ["customer_id", "name"]),
        ("orders", ["order_id", "customer_id", "total_amount", "order_date"])]⟩)) :=
  all_tiers_limit_50
    ⟨[("customers", ["customer_id", "name"]),
      ("orders", ["order_id", "customer_id", "total_amount", "order_date"])]⟩ _ (by rfl)

set_option maxRecDepth 8192 in
/-- C1 (code bug): on a schema holding customers, orders, order_items and
products but no reviews table, the Full tier is selected and the rendered
text left-joins the literal table name `None` (Python's `f"{t_reviews}"`
interpolation of the absent table), which names no table of the snapshot:
the query references a table the schema does not have. -/
theorem full_tier_renders_none_reviews_table :
    build_query ⟨[("customers", ["customer_id", "name"]),
        ("orders", ["order_id", "customer_id", "order_date"]),
        ("order_items", ["order_id", "product_id", "quantity", "subtotal"]),
        ("products", ["product_id", "product_name"])]⟩ =
      Except.ok "\n        SELECT\n            c.customer_id AS customer_id,\n            c.name AS customer_name,\n            p.product_name AS product_name,\n            o.order_id AS order_id,\n            o.order_date,\n            oi.quantity AS quantity,\n            oi.subtotal AS subtotal,\n            NULL AS rating\n        FROM customers c\n        JOIN orders o ON c.customer_id = o.customer_id\n        JOIN order_items oi ON o.order_id = oi.order_id\n        LEFT JOIN products p ON oi.product_id = p.product_id\n        LEFT JOIN None r ON r.customer_id = c.customer_id AND r.product_id = p.product_id\n        LIMIT 50;\n        " ∧
    occursIn "LEFT JOIN None r ON r.customer_id = c.customer_id AND r.product_id = p.product_id"
      (okStr (build_query ⟨[("customers", ["customer_id", "name"]),
        ("orders", ["order_id", "customer_id", "order_date"]),
        ("order_items", ["order_id", "product_id", "quantity", "subtotal"]),
        ("products", ["product_id", "product_name"])]⟩)) ∧
    "None" ∉ get_tables ⟨[("customers", ["customer_id", "name"]),
        ("orders", ["order_id", "customer_id", "order_date"]),
        ("order_items", ["order_id", "product_id", "quantity", "subtotal"]),
        ("products", ["product_id", "product_name"])]⟩ := by
  refine ⟨rfl, ⟨"\n        SELECT\n            c.customer_id AS customer_id,\n            c.name AS customer_name,\n            p.product_name AS product_name,\n            o.order_id AS order_id,\n            o.order_date,\n            oi.quantity AS quantity,\n            oi.subtotal AS subtotal,\n            NULL AS rating\n        FROM customers c\n        JOIN orders o ON c.customer_id = o.customer_id\n        JOIN order_items oi ON o.order_id = oi.order_id\n        LEFT JOIN products p ON oi.product_id = p.product_id\n        ", "\n        LIMIT 50;\n        ", rfl⟩, by decide⟩

set_option maxRecDepth 8192 in
/-- C3 counterexample: when no customer-id candidate matches, the binding
used in the rendered plan is not "absent" but the customers table's first
column (`find_first_in(...) or customers_cols[0]`, line 62): with columns
`[cid, name]` the query projects and joins on `c.cid`, a name that is in no
candidate list, although resolution returned absence. -/
theorem id_role_fallback_counterexample :
    find_first_in ["cid", "name"] CUSTOMER_ID_CANDIDATES = none ∧
    build_query ⟨[("customers", ["cid", "name"]), ("orders", ["oid", "order_date"])]⟩ =
      Except.ok "\n    SELECT\n        c.cid AS customer_id,\n        c.name AS customer_name,\n        o.oid AS order_id,\n        o.order_date,\n        o.total_amount AS total_amount\n    FROM customers c\n    LEFT JOIN orders o ON c.cid = o.customer_id\n    LIMIT 50;\n    " ∧
    occursIn "c.cid AS customer_id"
      (okStr (build_query ⟨[("customers", ["cid", "name"]),
        ("orders", ["oid", "order_date"])]⟩)) ∧
    "cid" ∉ CUSTOMER_ID_CANDIDATES := by
  refine ⟨rfl, rfl, ⟨"\n    SELECT\n        ", ",\n        c.name AS customer_name,\n        o.oid AS order_id,\n        o.order_date,\n        o.total_amount AS total_amount\n    FROM customers c\n    LEFT JOIN orders o ON c.cid = o.customer_id\n    LIMIT 50;\n    ", rfl⟩, by decide⟩

set_option maxRecDepth 8192 in
/-- C4 counterexample: with order_items columns `[id, order_id, quantity,
subtotal]` and products columns `[product_id, name]`, the products table's
own product-id role resolves to `product_id`, yet the rendered left join
compares `oi.product_id` to `p.id` — the role resolved from the order_items
columns, not from the products table. -/
theorem products_join_key_counterexample :
    build_query ⟨[("customers", ["customer_id", "name"]),
        ("orders", ["order_id", "customer_id", "order_date"]),
        ("order_items", ["id", "order_id", "quantity", "subtotal"]),
        ("products", ["product_id", "name"])]⟩ =
      Except.ok "\n        SELECT\n            c.customer_id AS customer_id,\n            c.name AS customer_name,\n            p.name AS product_name,\n            o.order_id AS order_id,\n            o.order_date,\n            oi.quantity AS quantity,\n            oi.subtotal AS subtotal,\n            NULL AS rating\n        FROM customers c\n        JOIN orders o ON c.customer_id = o.customer_id\n        JOIN order_items oi ON o.order_id = oi.order_id\n        LEFT JOIN products p ON oi.product_id = p.id\n        LEFT JOIN None r ON r.customer_id = c.customer_id AND r.product_id = p.id\n        LIMIT 50;\n        " ∧
    occursIn "LEFT JOIN products p ON oi.product_id = p.id"
      (okStr (build_query ⟨[("customers", ["customer_id", "name"]),
        ("orders", ["order_id", "customer_id", "order_date"]),
        ("order_items", ["id", "order_id", "quantity", "subtotal"]),
        ("products", ["product_id", "name"])]⟩)) ∧
    find_first_in ["product_id", "name"] PRODUCT_ID_CANDIDATES = some "product_id" ∧
    find_first_in ["id", "order_id", "quantity", "subtotal"] PRODUCT_ID_CANDIDATES =
      some "id" := by
  refine ⟨rfl, ⟨"\n        SELECT\n            c.customer_id AS customer_id,\n            c.name AS customer_name,\n            p.name AS product_name,\n            o.order_id AS order_id,\n            o.order_date,\n            oi.quantity AS quantity,\n            oi.subtotal AS subtotal,\n            NULL AS rating\n        FROM customers c\n        JOIN orders o ON c.customer_id = o.customer_id\n        JOIN order_items oi ON o.order_id = oi.order_id\n        ", "\n        LEFT JOIN None r ON r.customer_id = c.customer_id AND r.product_id = p.id\n        LIMIT 50;\n        ", rfl⟩, rfl, rfl⟩

/-- C6 counterexample: a snapshot whose customers table reports no columns
(its column list is empty, so vacuously no column matches any candidate
list) makes `build_query` fail — `customers_cols[0]` raises `IndexError` —
instead of succeeding with the Minimal tier. -/
theorem minimal_tier_empty_columns_counterexample :
    build_query ⟨[("customers", []), ("orders", ["order_ref"])]⟩ =
      Except.error BuildError.indexError := rfl

/-- C6 (amended): on a snapshot holding exactly a customers and an orders
table, each with a nonempty column list none of whose names occurs in any
candidate list, `build_query` succeeds with the Minimal tier, joining
customers to orders and projecting customer id (bound to the customers
table's first column), the literal `c.name`, order id (the orders table's
first column), the literal `o.order_date`, and the literal fallback
`total_amount`; nonemptiness is required because a reported table always has
at least one column — an empty column list instead raises `IndexError`. -/
theorem minimal_tier_unmatched_columns
    (c0 o0 : String) (crest orest : List String)
    (hc : ∀ x ∈ c0 :: crest, x ∉ allCandidateColumns)
    (ho : ∀ x ∈ o0 :: orest, x ∉ allCandidateColumns) :
    ∃ r, resolveSchema ⟨[("customers", c0 :: crest), ("orders", o0 :: orest)]⟩ =
        Except.ok r ∧
      tierOf r = Tier.minimal ∧
      build_query ⟨[("customers", c0 :: crest), ("orders", o0 :: orest)]⟩ =
        Except.ok (renderMinimal r) ∧
      occursIn ("SELECT\n        c." ++ c0 ++ " AS customer_id,\n        c.name AS customer_name,\n        o." ++ o0 ++ " AS order_id,\n        o.order_date,\n        o." ++ "total_amount" ++ " AS total_amount")
        (renderMinimal r) ∧
      occursIn "LIMIT 50;" (renderMinimal r) := by
  have hnone : ∀ cands : List String, (∀ x ∈ cands, x ∈ allCandidateColumns) →
      ∀ cols : List String, (∀ x ∈ cols, x ∉ allCandidateColumns) →
      find_first_in cols cands = none := by
    intro cands hsub cols hcols
    exact (find_first_in_none_iff cols cands).mpr
      (fun c hcand hmem => hcols c hmem (hsub c hcand))
  have hffC : find_first_in (c0 :: crest) CUSTOMER_ID_CANDIDATES = none :=
    hnone _ (by decide) _ hc
  have hffO : find_first_in (o0 :: orest) ORDER_ID_CANDIDATES = none :=
    hnone _ (by decide) _ ho
  have hffP : find_first_in (o0 :: orest) PRODUCT_ID_CANDIDATES = none :=
    hnone _ (by decide) _ ho
  have hffT : find_first_in (o0 :: orest) ORDER_TOTAL_CANDIDATES = none :=
    hnone _ (by decide) _ ho
  have hresC : resolveIdColumn
      (get_columns ⟨[("customers", c0 :: crest), ("orders", o0 :: orest)]⟩ "customers")
      CUSTOMER_ID_CANDIDATES = Except.ok c0 :=
    resolveIdColumn_none hffC rfl
  have hresO : resolveIdColumn
      (get_columns ⟨[("customers", c0 :: crest), ("orders", o0 :: orest)]⟩ "orders")
      ORDER_ID_CANDIDATES = Except.ok o0 :=
    resolveIdColumn_none hffO rfl
  have hres : resolveSchema ⟨[("customers", c0 :: crest), ("orders", o0 :: orest)]⟩ =
      Except.ok
        { t_customers := "customers"
          t_orders := "orders"
          t_products := none
          t_order_items := none
          t_reviews := none
          customers_cols := c0 :: crest
          orders_cols := o0 :: orest
          products_cols := []
          oi_cols := []
          reviews_cols := []
          cust_id_col := c0
          order_id_col := o0
          product_id_col := none
          product_name_col := none
          quantity_col := none
          subtotal_col := none
          order_total_col := none
          rating_col := none } := by
    show mkResolved ⟨[("customers", c0 :: crest), ("orders", o0 :: orest)]⟩
      "customers" "orders" = _
    unfold mkResolved
    dsimp only
    rw [hresC, hresO]
    have hffP2 : find_first_in
        (get_columns ⟨[("customers", c0 :: crest), ("orders", o0 :: orest)]⟩ "orders")
        PRODUCT_ID_CANDIDATES = none := hffP
    have hffT2 : find_first_in
        (get_columns ⟨[("customers", c0 :: crest), ("orders", o0 :: orest)]⟩ "orders")
        ORDER_TOTAL_CANDIDATES = none := hffT
    rw [hffP2, hffT2]
    rfl
  refine ⟨_, hres, rfl, ?_, ?_, ?_⟩
  · unfold build_query
    rw [hres]
    rfl
  · unfold renderMinimal
    exact occursIn_appL _ (occursIn_appL _ (occursIn_appL _ (occursIn_appL _
      (occursIn_appL _ (occursIn_appL _ (occursIn_appL _
        (occursIn_appR _ (occursIn_self _))))))))
  · unfold renderMinimal
    exact occursIn_appL _ (occursIn_appR _ (occursIn_self _))

/-- Witness for C6 on concrete unmatched column names. -/
theorem minimal_tier_unmatched_columns_witness :
    ∃ r, resolveSchema ⟨[("customers", ["cref", "cname"]), ("orders", ["oref", "odate"])]⟩ =
        Except.ok r ∧
      tierOf r = Tier.minimal ∧
      build_query ⟨[("customers", ["cref", "cname"]), ("orders", ["oref", "odate"])]⟩ =
        Except.ok (renderMinimal r) ∧
      occursIn ("SELECT\n        c." ++ "cref" ++ " AS customer_id,\n        c.name AS customer_name,\n        o." ++ "oref" ++ " AS order_id,\n        o.order_date,\n        o." ++ "total_amount" ++ " AS total_amount")
        (renderMinimal r) ∧
      occursIn "LIMIT 50;" (renderMinimal r) :=
  minimal_tier_unmatched_columns "cref" "oref" ["cname"] ["odate"] (by decide) (by decide)

/-- C10: the rendered join conditions compare against fixed literal column
names on the orders, order_items and reviews sides — `o.customer_id`,
`oi.order_id`, `r.customer_id` and `r.product_id` — independent of the role
bindings; only the `c.`, `o.` and `p.` sides of the join conditions carry
resolved names. -/
theorem literal_join_key_names (s : Schema) (r : Resolved) (q : String)
    (hr : resolveSchema s = Except.ok r) (hq : build_query s = Except.ok q) :
    (tierOf r = Tier.full →
      occursIn ("JOIN " ++ r.t_orders ++ " o ON c." ++ r.cust_id_col ++ " = o.customer_id") q ∧
      occursIn ("JOIN " ++ pyStr r.t_order_items ++ " oi ON o." ++ r.order_id_col ++ " = oi.order_id") q ∧
      occursIn ("LEFT JOIN " ++ pyStr r.t_reviews ++ " r ON r.customer_id = c." ++ r.cust_id_col ++ " AND r.product_id = p." ++ pyOrS r.product_id_col "product_id") q) ∧
    (tierOf r = Tier.degraded →
      occursIn ("JOIN " ++ r.t_orders ++ " o ON c." ++ r.cust_id_col ++ " = o.customer_id") q ∧
      occursIn ("LEFT JOIN " ++ pyStr r.t_reviews ++ " r ON r.customer_id = c." ++ r.cust_id_col ++ " AND r.product_id = p." ++ pyStr r.product_id_col) q) := by
  obtain ⟨r2, hr2, rfl⟩ := build_query_ok_iff.mp hq
  rw [hr] at hr2
  cases hr2
  constructor
  · intro hfull
    simp only [render, hfull]
    unfold renderFull
    refine ⟨?_, ?_, ?_⟩
    · exact occursIn_appL _ (occursIn_appL _ (occursIn_appL _ (occursIn_appL _
        (occursIn_appL _ (occursIn_appL _ (occursIn_appL _ (occursIn_appL _
          (occursIn_appL _ (occursIn_appR _ (occursIn_self _))))))))))
    · exact occursIn_appL _ (occursIn_appL _ (occursIn_appL _ (occursIn_appL _
        (occursIn_appL _ (occursIn_appL _ (occursIn_appL _
          (occursIn_appR _ (occursIn_self _))))))))
    · exact occursIn_appL _ (occursIn_appL _ (occursIn_appL _
        (occursIn_appR _ (occursIn_self _))))
  · intro hdeg
    simp only [render, hdeg]
    unfold renderDegraded
    refine ⟨?_, ?_⟩
    · exact occursIn_appL _ (occursIn_appL _ (occursIn_appL _ (occursIn_appL _
        (occursIn_appL _ (occursIn_appL _ (occursIn_appL _
          (occursIn_appR _ (occursIn_self _))))))))
    · exact occursIn_appL _ (occursIn_appL _ (occursIn_appL _
        (occursIn_appR _ (occursIn_self _))))

set_option maxRecDepth 16384 in
/-- Witness for C10 on a concrete full-tier snapshot with reviews present. -/
theorem literal_join_key_names_witness :
    occursIn ("JOIN " ++ "orders" ++ " o ON c." ++ "customer_id" ++ " = o.customer_id")
      (okStr (build_query ⟨[("customers", ["customer_id", "name"]),
        ("orders", ["order_id", "customer_id", "order_date"]),
        ("order_items", ["order_id", "product_id", "quantity", "subtotal"]),
        ("products", ["product_id", "product_name"]),
        ("reviews", ["customer_id", "product_id", "rating"])]⟩)) ∧
    occursIn ("JOIN " ++ "order_items" ++ " oi ON o." ++ "order_id" ++ " = oi.order_id")
      (okStr (build_query ⟨[("customers", ["customer_id", "name"]),
        ("orders", ["order_id", "customer_id", "order_date"]),
        ("order_items", ["order_id", "product_id", "quantity", "subtotal"]),
        ("products", ["product_id", "product_name"]),
        ("reviews", ["customer_id", "product_id", "rating"])]⟩)) ∧
    occursIn ("LEFT JOIN " ++ "reviews" ++ " r ON r.customer_id = c." ++ "customer_id" ++ " AND r.product_id = p." ++ "product_id")
      (okStr (build_query ⟨[("customers", ["customer_id", "name"]),
        ("orders", ["order_id", "customer_id", "order_date"]),
        ("order_items", ["order_id", "product_id", "quantity", "subtotal"]),
        ("products", ["product_id", "product_name"]),
        ("reviews", ["customer_id", "product_id", "rating"])]⟩)) := by
  have h := literal_join_key_names
    ⟨[("customers", ["customer_id", "name"]),
      ("orders", ["order_id", "customer_id", "order_date"]),
      ("order_items", ["order_id", "product_id", "quantity", "subtotal"]),
      ("products", ["product_id", "product_name"]),
      ("reviews", ["customer_id", "product_id", "rating"])]⟩
    { t_customers := "customers"
      t_orders := "orders"
      t_products := some "products"
      t_order_items := some "order_items"
      t_reviews := some "reviews"
      customers_cols := ["customer_id", "name"]
      orders_cols := ["order_id", "customer_id", "order_date"]
      products_cols := ["product_id", "product_name"]
      oi_cols := ["order_id", "product_id", "quantity", "subtotal"]
      reviews_cols := ["customer_id", "product_id", "rating"]
      cust_id_col := "customer_id"
      order_id_col := "order_id"
      product_id_col := some "product_id"
      product_name_col := some "product_name"
      quantity_col := some "quantity"
      subtotal_col := some "subtotal"
      order_total_col := none
      rating_col := some "rating" }
    (okStr (build_query ⟨[("customers", ["customer_id", "name"]),
      ("orders", ["order_id", "customer_id", "order_date"]),
      ("order_items", ["order_id", "product_id", "quantity", "subtotal"]),
      ("products", ["product_id", "product_name"]),
      ("reviews", ["customer_id", "product_id", "rating"])]⟩))
    (by rfl) (by rfl)
  exact h.1 (by rfl)

/-- C4 (amended): in every Full-tier query, the products side of the
rendered left join carries the product-id role that `build_query` resolved
by searching the order_items columns first and the orders columns second —
never the products table's columns — and the literal `product_id` only when
that search failed. -/
theorem products_join_key_amended (s : Schema) (r : Resolved) (q : String)
    (hr : resolveSchema s = Except.ok r) (hq : build_query s = Except.ok q)
    (hfull : tierOf r = Tier.full) :
    r.product_id_col = pyOrOpt
      (if r.oi_cols.isEmpty then none else find_first_in r.oi_cols PRODUCT_ID_CANDIDATES)
      (find_first_in r.orders_cols PRODUCT_ID_CANDIDATES) ∧
    occursIn ("LEFT JOIN " ++ pyStr r.t_products ++ " p ON oi.product_id = p." ++ pyOrS r.product_id_col "product_id") q := by
  obtain ⟨tc, tto, _, _, _, _, hmk⟩ := resolveSchema_ok_inv hr
  have hf := mkResolved_ok_fields hmk
  refine ⟨hf.2.2.2.2.2.2.2.2.2.2.2.2.1, ?_⟩
  obtain ⟨r2, hr2, rfl⟩ := build_query_ok_iff.mp hq
  rw [hr] at hr2
  cases hr2
  simp only [render, hfull]
  unfold renderFull
  exact occursIn_appL _ (occursIn_appL _ (occursIn_appL _ (occursIn_appL _
    (occursIn_appL _ (occursIn_appR _ (occursIn_self _))))))

set_option maxRecDepth 16384 in
/-- Witness for the amended C4 on the counterexample snapshot. -/
theorem products_join_key_amended_witness :
    (some "id" : Option String) = pyOrOpt
      (if (["id", "order_id", "quantity", "subtotal"] : List String).isEmpty then none
        else find_first_in ["id", "order_id", "quantity", "subtotal"] PRODUCT_ID_CANDIDATES)
      (find_first_in ["order_id", "customer_id", "order_date"] PRODUCT_ID_CANDIDATES) ∧
    occursIn ("LEFT JOIN " ++ "products" ++ " p ON oi.product_id = p." ++ "id")
      (okStr (build_query ⟨[("customers", ["customer_id", "name"]),
        ("orders", ["order_id", "customer_id", "order_date"]),
        ("order_items", ["id", "order_id", "quantity", "subtotal"]),
        ("products", ["product_id", "name"])]⟩)) :=
  products_join_key_amended
    ⟨[("customers", ["customer_id", "name"]),
      ("orders", ["order_id", "customer_id", "order_date"]),
      ("order_items", ["id", "order_id", "quantity", "subtotal"]),
      ("products", ["product_id", "name"])]⟩
    { t_customers := "customers"
      t_orders := "orders"
      t_products := some "products"
      t_order_items := some "order_items"
      t_reviews := none
      customers_cols := ["customer_id", "name"]
      orders_cols := ["order_id", "customer_id", "order_date"]
      products_cols := ["product_id", "name"]
      oi_cols := ["id", "order_id", "quantity", "subtotal"]
      reviews_cols := []
      cust_id_col := "customer_id"
      order_id_col := "order_id"
      product_id_col := some "id"
      product_name_col := some "name"
      quantity_col := some "quantity"
      subtotal_col := some "subtotal"
      order_total_col := none
      rating_col := none }
    (okStr (build_query ⟨[("customers", ["customer_id", "name"]),
      ("orders", ["order_id", "customer_id", "order_date"]),
      ("order_items", ["id", "order_id", "quantity", "subtotal"]),
      ("products", ["product_id", "name"])]⟩))
    (by rfl) (by rfl) (by rfl)

/-- C3 (amended): a role resolved by `find_first_in` is bound to the first
candidate, in list order, present in the columns, and to "absent" when no
candidate matches; however the customer-id and order-id bindings used by
`build_query` (lines 62-63) then fall back to the table's first column —
failing with `IndexError` when the table has no columns — rather than
staying absent. -/
theorem id_role_binding_amended (cols cands : List String) :
    (∀ c, find_first_in cols cands = some c →
      c ∈ cols ∧ ∃ pre post, cands = pre ++ c :: post ∧ ∀ x ∈ pre, x ∉ cols) ∧
    (∀ c, find_first_in cols cands = some c → c ≠ "" →
      resolveIdColumn cols cands = Except.ok c) ∧
    (find_first_in cols cands = none → ∀ c0 cs, cols = c0 :: cs →
      resolveIdColumn cols cands = Except.ok c0) ∧
    (find_first_in cols cands = none → cols = [] →
      resolveIdColumn cols cands = Except.error BuildError.indexError) := by
  refine ⟨fun c => find_first_in_some_spec cols cands c, ?_, ?_, ?_⟩
  · intro c h hne
    unfold resolveIdColumn
    rw [h]
    simp [hne]
  · intro h c0 cs hc
    exact resolveIdColumn_none h hc
  · intro h hc
    subst hc
    unfold resolveIdColumn
    rw [h]

/-- Witness for the amended C3: with columns `[cid, name]` no customer-id
candidate matches, and the binding falls back to the first column `cid`. -/
theorem id_role_binding_amended_witness :
    resolveIdColumn ["cid", "name"] CUSTOMER_ID_CANDIDATES = Except.ok "cid" :=
  (id_role_binding_amended ["cid", "name"] CUSTOMER_ID_CANDIDATES).2.2.1 (by rfl)
    "cid" ["name"] rfl

theorem get_columns_append_of_mem (s : Schema) (a : String × List String) (t : String)
    (h : t ∈ get_tables s) :
    get_columns ⟨s.tables ++ [a]⟩ t = get_columns s t := by
  obtain ⟨p, hp, rfl⟩ := List.mem_map.mp h
  unfold get_columns
  rw [List.find?_append]
  cases hfind : s.tables.find? (fun q => q.1 == p.1) with
  | none =>
    exfalso
    have := List.find?_eq_none.mp hfind p hp
    simp at this
  | some q => rfl

theorem colsOfOpt_append (s : Schema) (a : String × List String) (t : Option String)
    (h : ∀ tp, t = some tp → tp ∈ get_tables s) :
    colsOfOpt ⟨s.tables ++ [a]⟩ t = colsOfOpt s t := by
  cases t with
  | none => rfl
  | some tp =>
    unfold colsOfOpt
    dsimp only
    by_cases he : tp = ""
    · rw [if_pos he, if_pos he]
    · rw [if_neg he, if_neg he, get_columns_append_of_mem s a tp (h tp rfl)]

/-- C5: tier selection is monotonic in schema richness: appending an
`order_items` table (no table of that lowered name being present before) to
a snapshot that selected the Degraded or Minimal tier, the product-name
role being resolvable, makes `build_query` select the Full tier. -/
theorem tier_monotonic_add_order_items (s : Schema) (oiCols : List String) (r : Resolved)
    (hr : resolveSchema s = Except.ok r)
    (htier : tierOf r = Tier.degraded ∨ tierOf r = Tier.minimal)
    (hfresh : ∀ p ∈ s.tables, lowerStr p.1 ≠ "order_items")
    (hname : truthyS r.product_name_col = true) :
    Except.map tierOf (resolveSchema ⟨s.tables ++ [("order_items", oiCols)]⟩) =
      Except.ok Tier.full := by
  obtain ⟨tc, tto, hbc, hbo, htc, htto, hmk⟩ := resolveSchema_ok_inv hr
  have hf := mkResolved_ok_fields hmk
  have hcic := hf.1
  have hoic := hf.2.1
  have htp := hf.2.2.2.2.1
  have hpcols := hf.2.2.2.2.2.2.2.2.2.1
  have hpname := hf.2.2.2.2.2.2.2.2.2.2.2.2.2.1
  have htab : get_tables ⟨s.tables ++ [("order_items", oiCols)]⟩ =
      get_tables s ++ ["order_items"] := by
    simp [get_tables]
  have hml : (get_tables ⟨s.tables ++ [("order_items", oiCols)]⟩).map lowerStr =
      (get_tables s).map lowerStr ++ ["order_items"] := by
    rw [htab, List.map_append]
    rfl
  have hc2 : ((get_tables ⟨s.tables ++ [("order_items", oiCols)]⟩).map lowerStr).contains
      "customers" = true :=
    List.elem_iff.mpr (by rw [hml]; exact List.mem_append_left _ (List.elem_iff.mp hbc))
  have ho2 : ((get_tables ⟨s.tables ++ [("order_items", oiCols)]⟩).map lowerStr).contains
      "orders" = true :=
    List.elem_iff.mpr (by rw [hml]; exact List.mem_append_left _ (List.elem_iff.mp hbo))
  have hoi2 : ((get_tables ⟨s.tables ++ [("order_items", oiCols)]⟩).map lowerStr).contains
      "order_items" = true :=
    List.elem_iff.mpr (by rw [hml]; exact List.mem_append_right _ (by simp))
  have hfindnone : (get_tables s).find? (fun t => lowerStr t == "order_items") = none := by
    apply List.find?_eq_none.mpr
    intro t ht
    obtain ⟨p, hp, rfl⟩ := List.mem_map.mp ht
    simpa using hfresh p hp
  have hftc2 : find_table (get_tables ⟨s.tables ++ [("order_items", oiCols)]⟩)
      "customers" = some tc := by
    unfold find_table at htc ⊢
    rw [htab, List.find?_append, htc]
    rfl
  have hftto2 : find_table (get_tables ⟨s.tables ++ [("order_items", oiCols)]⟩)
      "orders" = some tto := by
    unfold find_table at htto ⊢
    rw [htab, List.find?_append, htto]
    rfl
  have hfoi2 : find_table (get_tables ⟨s.tables ++ [("order_items", oiCols)]⟩)
      "order_items" = some "order_items" := by
    unfold find_table
    rw [htab, List.find?_append, hfindnone]
    rfl
  have hcontp : ((get_tables ⟨s.tables ++ [("order_items", oiCols)]⟩).map lowerStr).contains
      "products" = ((get_tables s).map lowerStr).contains "products" := by
    rw [hml]
    cases hp : ((get_tables s).map lowerStr).contains "products" with
    | true => exact List.elem_iff.mpr (List.mem_append_left _ (List.elem_iff.mp hp))
    | false =>
      refine Bool.eq_false_iff.mpr (fun habs => ?_)
      rcases List.mem_append.mp (List.elem_iff.mp habs) with h1 | h1
      · have h2 : ((get_tables s).map lowerStr).contains "products" = true :=
          List.elem_iff.mpr h1
        rw [h2] at hp
        exact absurd hp (by decide)
      · simp at h1
  have hftp2 : find_table (get_tables ⟨s.tables ++ [("order_items", oiCols)]⟩)
      "products" = find_table (get_tables s) "products" := by
    unfold find_table
    rw [htab, List.find?_append]
    cases h : (get_tables s).find? (fun t => lowerStr t == "products") with
    | some t => rfl
    | none => rfl
  have htcmem : tc ∈ get_tables s := List.mem_of_find?_eq_some htc
  have httomem : tto ∈ get_tables s := List.mem_of_find?_eq_some htto
  have hgct : get_columns ⟨s.tables ++ [("order_items", oiCols)]⟩ tc = get_columns s tc :=
    get_columns_append_of_mem s ("order_items", oiCols) tc htcmem
  have hgcto : get_columns ⟨s.tables ++ [("order_items", oiCols)]⟩ tto = get_columns s tto :=
    get_columns_append_of_mem s ("order_items", oiCols) tto httomem
  have hpmem : ∀ tp, r.t_products = some tp → tp ∈ get_tables s := by
    intro tp hsome
    rw [htp] at hsome
    by_cases hcp : ((get_tables s).map lowerStr).contains "products" = true
    · rw [if_pos hcp] at hsome
      exact List.mem_of_find?_eq_some hsome
    · rw [if_neg hcp] at hsome
      cases hsome
  have hcolsP : colsOfOpt ⟨s.tables ++ [("order_items", oiCols)]⟩ r.t_products =
      colsOfOpt s r.t_products :=
    colsOfOpt_append s ("order_items", oiCols) r.t_products hpmem
  unfold resolveSchema
  dsimp only
  rw [hc2, ho2]
  rw [if_pos (show ((true : Bool) && true) = true from rfl)]
  rw [hftc2, hftto2]
  dsimp only
  unfold mkResolved
  dsimp only
  rw [hgct, hgcto, hcic, hoic]
  dsimp only
  simp only [Except.map]
  simp only [Except.ok.injEq]
  unfold tierOf
  dsimp only
  rw [hoi2]
  rw [if_pos rfl]
  rw [hfoi2]
  rw [hcontp, hftp2, ← htp, hcolsP, ← hpcols, ← hpname, hname]
  rfl

set_option maxRecDepth 16384 in
/-- Witness for C5: a degraded-tier snapshot gains an order_items table and
the selection becomes Full. -/
theorem tier_monotonic_add_order_items_witness :
    Except.map tierOf (resolveSchema ⟨[("customers", ["customer_id", "name"]),
      ("orders", ["order_id", "customer_id", "product_id", "total_amount", "order_date"]),
      ("products", ["product_id", "name"])] ++
        [("order_items", ["order_id", "product_id", "quantity", "subtotal"])]⟩) =
      Except.ok Tier.full :=
  tier_monotonic_add_order_items
    ⟨[("customers", ["customer_id", "name"]),
      ("orders", ["order_id", "customer_id", "product_id", "total_amount", "order_date"]),
      ("products", ["product_id", "name"])]⟩
    ["order_id", "product_id", "quantity", "subtotal"]
    { t_customers := "customers"
      t_orders := "orders"
      t_products := some "products"
      t_order_items := none
      t_reviews := none
      customers_cols := ["customer_id", "name"]
      orders_cols := ["order_id", "customer_id", "product_id", "total_amount", "order_date"]
      products_cols := ["product_id", "name"]
      oi_cols := []
      reviews_cols := []
      cust_id_col := "customer_id"
      order_id_col := "order_id"
      product_id_col := some "product_id"
      product_name_col := some "name"
      quantity_col := none
      subtotal_col := none
      order_total_col := some "total_amount"
      rating_col := none }
    (by rfl) (Or.inl (by rfl)) (by decide) (by rfl)
